import Mathlib

/-!
Shallow embedding of the auth-dashboard backend (FastAPI task tracker):
data model, CRUD layer (`app/crud.py`), identity resolution
(`app/dependencies.py`) and the route handlers (`app/routes/auth.py`,
`app/routes/tasks.py`), together with theorems settling the spec claims.

The password hasher/verifier and the JWT helpers live in `app/auth.py`,
which is not part of the provided sources; they are taken as function
parameters where a route merely calls them, and the token service itself
is modelled from the spec (see `signToken` below).
-/

namespace AuthDash

/-- User record, as stored by the user store (`app/models.py` User:
id, email, full_name, hashed_password, is_active). -/
structure User where
  id : Nat
  email : String
  full_name : String
  hashed_password : String
  is_active : Bool
deriving Repr, DecidableEq

/-- Task record, as stored by the task store (`app/models.py` Task:
id, title, optional description, status, owner_id). -/
structure Task where
  id : Nat
  title : String
  description : Option String
  status : String
  owner_id : Nat
deriving Repr, DecidableEq

/-- The relational store visible to the backend: user rows, task rows,
and the next ids the store will assign on insert. -/
structure DB where
  users : List User
  tasks : List Task
  nextUserId : Nat
  nextTaskId : Nat
deriving Repr, DecidableEq

/-- Schema `UserCreate` from `app/schemas.py`: email, full_name, password. -/
structure UserCreate where
  email : String
  full_name : String
  password : String
deriving Repr, DecidableEq

/-- Schema `LoginRequest` from `app/schemas.py`: email, password. -/
structure LoginRequest where
  email : String
  password : String
deriving Repr, DecidableEq

/-- Schema `TaskCreate` (= `TaskBase`) from `app/schemas.py`: title and optional description;
note it carries no owner id and no status. -/
structure TaskCreate where
  title : String
  description : Option String
deriving Repr, DecidableEq

/-- Schema `TaskUpdate` from `app/schemas.py`: all three fields optional. `none` encodes a field
absent from the request (excluded by `model_dump(exclude_unset=True)`),
`some v` a field explicitly present with value `v`. -/
structure TaskUpdate where
  title : Option String
  description : Option (Option String)
  status : Option String
deriving Repr, DecidableEq

/-- Schema `Token` from `app/schemas.py`: access_token plus token_type marker. -/
structure TokenOut where
  access_token : String
  token_type : String
deriving Repr, DecidableEq

/-- A FastAPI `HTTPException`: status code plus detail string. -/
structure HttpError where
  status_code : Nat
  detail : String
deriving Repr, DecidableEq

/-- Modelled from the spec: default status of a newly created task
(`app/models.py` is absent from the sources; the status column has a
server-side default and `TaskCreate` cannot set it). -/
def defaultTaskStatus : String := "pending"

/-- Modelled from the spec: active flag of a newly created user
(`app/models.py` is absent; users are created active). -/
def defaultIsActive : Bool := true

/-- Embeds `crud.get_user_by_email`: first user row whose email matches. -/
def get_user_by_email (db : DB) (email : String) : Option User :=
  db.users.find? (fun u => u.email == email)

/-- Embeds `crud.authenticate_user`: look up by email; if absent or password
verification fails, return the failure sentinel (Python `False`, here
`none`); otherwise the user. `verify` stands for `auth.verify_password`. -/
def authenticate_user (verify : String → String → Bool) (db : DB)
    (email password : String) : Option User :=
  match get_user_by_email db email with
  | none => none
  | some user => if verify password user.hashed_password then some user else none

/-- Embeds `crud.create_user`: hash the password and insert; the store assigns
the id. `hash` stands for `auth.get_password_hash`. -/
def create_user (hash : String → String) (db : DB) (user : UserCreate) :
    User × DB :=
  let u : User :=
    { id := db.nextUserId
      email := user.email
      full_name := user.full_name
      hashed_password := hash user.password
      is_active := defaultIsActive }
  (u, { db with users := db.users ++ [u], nextUserId := db.nextUserId + 1 })

/-- Embeds `crud.create_task`: build a Task from the request fields plus the
given `owner_id`; the store assigns the id and the default status. -/
def create_task (db : DB) (task : TaskCreate) (owner_id : Nat) :
    Task × DB :=
  let t : Task :=
    { id := db.nextTaskId
      title := task.title
      description := task.description
      status := defaultTaskStatus
      owner_id := owner_id }
  (t, { db with tasks := db.tasks ++ [t], nextTaskId := db.nextTaskId + 1 })

/-- Predicate `startsWithChars hay pat`: `pat` is an initial run of `hay`. -/
def startsWithChars : List Char → List Char → Bool
  | _, [] => true
  | [], _ :: _ => false
  | h :: hs, p :: ps => h == p && startsWithChars hs ps

/-- Predicate `hasSubstringChars hay pat`: `pat` occurs contiguously in `hay`. -/
def hasSubstringChars : List Char → List Char → Bool
  | [], pat => startsWithChars [] pat
  | hay@(_ :: t), pat => startsWithChars hay pat || hasSubstringChars t pat

/-- SQL `ilike '%search%'`: case-insensitive containment of the search
term in the title. -/
def ilikeContains (title search : String) : Bool :=
  hasSubstringChars title.toLower.toList search.toLower.toList

/-- Embeds `crud.get_user_tasks`: the requester's rows, with offset and limit
applied by the store. -/
def get_user_tasks (db : DB) (owner_id skip limit : Nat) : List Task :=
  ((db.tasks.filter (fun t => t.owner_id == owner_id)).drop skip).take limit

/-- Embeds `crud.search_tasks`: the requester's rows whose title matches the
search term case-insensitively; no offset or limit. -/
def search_tasks (db : DB) (owner_id : Nat) (search : String) : List Task :=
  db.tasks.filter (fun t => t.owner_id == owner_id && ilikeContains t.title search)

/-- Embeds `crud.get_task`: single lookup filtered by id AND owner id. -/
def get_task (db : DB) (task_id owner_id : Nat) : Option Task :=
  db.tasks.find? (fun t => t.id == task_id && t.owner_id == owner_id)

/-- Apply `model_dump(exclude_unset=True)` of a `TaskUpdate` to a task:
each present field overwrites, each absent field is untouched. -/
def applyTaskUpdate (u : TaskUpdate) (t : Task) : Task :=
  { t with
      title := u.title.getD t.title
      description := u.description.getD t.description
      status := u.status.getD t.status }

/-- Embeds `crud.update_task`: ownership-filtered fetch; on miss return `None`
leaving the store unchanged, on hit apply the partial update and commit. -/
def update_task (db : DB) (task_id owner_id : Nat) (u : TaskUpdate) :
    Option Task × DB :=
  match get_task db task_id owner_id with
  | none => (none, db)
  | some t =>
    let t' := applyTaskUpdate u t
    (some t',
      { db with tasks := db.tasks.map (fun x => if x.id == task_id && x.owner_id == owner_id then t' else x) })

/-- Embeds `crud.delete_task`: ownership-filtered fetch; delete the row on hit. -/
def delete_task (db : DB) (task_id owner_id : Nat) : Bool × DB :=
  match get_task db task_id owner_id with
  | none => (false, db)
  | some _ =>
    (true,
      { db with tasks := db.tasks.filter (fun x => !(x.id == task_id && x.owner_id == owner_id)) })

/-- Embeds `dependencies.get_current_user`: decode the bearer token (`decode`
stands for `auth.decode_token`, returning the subject email or a falsy
value); 401 with detail "Invalid authentication credentials" when decoding
fails, 401 with detail "User not found" when the subject email matches no
stored user; otherwise the user record. -/
def get_current_user (decode : String → Option String) (db : DB)
    (token : String) : Except HttpError User :=
  match decode token with
  | none => .error ⟨401, "Invalid authentication credentials"⟩
  | some email =>
    match db.users.find? (fun u => u.email == email) with
    | none => .error ⟨401, "User not found"⟩
    | some user => .ok user

/-- Embeds `routes/auth.register`: reject with 400 "Email already registered" if
the email is already present, else create the user. -/
def register (hash : String → String) (db : DB) (user : UserCreate) :
    Except HttpError User × DB :=
  match get_user_by_email db user.email with
  | some _ => (.error ⟨400, "Email already registered"⟩, db)
  | none =>
    let (u, db') := create_user hash db user
    (.ok u, db')

/-- Embeds `routes/auth.login`: authenticate; any credential failure yields the
single 401 "Invalid credentials" error; on success issue a token for the
user's email (`issueTok` stands for `auth.create_access_token` applied to
`{"sub": user.email}` with the configured TTL) with type "bearer". -/
def login (verify : String → String → Bool) (issueTok : String → String)
    (db : DB) (credentials : LoginRequest) : Except HttpError TokenOut :=
  match authenticate_user verify db credentials.email credentials.password with
  | none => .error ⟨401, "Invalid credentials"⟩
  | some user => .ok ⟨issueTok user.email, "bearer"⟩

/-- The uniform not-found response of the task routes. -/
def taskNotFound : HttpError := ⟨404, "Task not found"⟩

/-- Embeds `routes/tasks.create_new_task`: create with owner forced to the
authenticated user's id. -/
def create_new_task (db : DB) (current_user : User) (task : TaskCreate) :
    Task × DB :=
  create_task db task current_user.id

/-- Embeds `routes/tasks.list_tasks`: `if search:` — a non-empty search term
routes to `search_tasks`, otherwise `get_user_tasks` with its default
skip=0 and limit=100. -/
def list_tasks (db : DB) (current_user_id : Nat) (search : Option String) :
    List Task :=
  match search with
  | some s => if s.isEmpty then get_user_tasks db current_user_id 0 100
              else search_tasks db current_user_id s
  | none => get_user_tasks db current_user_id 0 100

/-- Embeds `routes/tasks.get_single_task`: 404 "Task not found" when the
owner-filtered lookup misses. -/
def get_single_task (db : DB) (current_user_id task_id : Nat) :
    Except HttpError Task :=
  match get_task db task_id current_user_id with
  | none => .error taskNotFound
  | some t => .ok t

/-- Embeds `routes/tasks.update_single_task`: 404 "Task not found" when
`update_task` misses. -/
def update_single_task (db : DB) (current_user_id task_id : Nat)
    (u : TaskUpdate) : Except HttpError Task × DB :=
  match update_task db task_id current_user_id u with
  | (none, db') => (.error taskNotFound, db')
  | (some t, db') => (.ok t, db')

/-- Embeds `routes/tasks.delete_single_task`: 404 "Task not found" when
`delete_task` misses, else the success message. -/
def delete_single_task (db : DB) (current_user_id task_id : Nat) :
    Except HttpError String × DB :=
  match delete_task db task_id current_user_id with
  | (false, db') => (.error taskNotFound, db')
  | (true, db') => (.ok "Task deleted successfully", db')

/-- Modelled from the spec: token payload of the Token Service
(`app/auth.py` is absent from the sources) — a subject (the user's email)
and an absolute expiry instant. -/
structure TokenData where
  sub : String
  exp : Nat
deriving Repr, DecidableEq

/-- Modelled from the spec: a signed token is its payload together with a
signature over the payload. -/
structure SignedToken where
  payload : TokenData
  signature : String
deriving Repr, DecidableEq

/-- Modelled from the spec: HMAC-style signature over the payload under
the process-wide secret key; verification recomputes and compares. -/
def signToken (key : String) (p : TokenData) : String :=
  key ++ "." ++ p.sub ++ "." ++ toString p.exp

/-- Modelled from the spec: `issue(subject, ttl)` — payload states the
subject and expiry = now + ttl, signed with the process-wide key. -/
def issueToken (key : String) (now : Nat) (subject : String) (ttl : Nat) :
    SignedToken :=
  let p : TokenData := { sub := subject, exp := now + ttl }
  { payload := p, signature := signToken key p }

/-- Modelled from the spec: `verify(token)` — the subject when the
signature matches the key and the current time is before the expiry;
the invalid sentinel otherwise. -/
def verifyToken (key : String) (now : Nat) (tok : SignedToken) :
    Option String :=
  if tok.signature == signToken key tok.payload && now < tok.payload.exp then
    some tok.payload.sub
  else none

/-! Sample records used by witnesses and counterexamples. -/

/-- A sample registered user (owner id 1). -/
def uAlice : User :=
  { id := 1, email := "alice@example.com", full_name := "Alice"
    hashed_password := "hpw", is_active := true }

/-- A sample inactive user. -/
def uBob : User :=
  { id := 2, email := "bob@example.com", full_name := "Bob"
    hashed_password := "hpw2", is_active := false }

/-- A sample task owned by user 1. -/
def tAlpha : Task :=
  { id := 1, title := "Alpha", description := some "first"
    status := "pending", owner_id := 1 }

/-- A sample task owned by user 2. -/
def tBeta : Task :=
  { id := 2, title := "Beta", description := none
    status := "pending", owner_id := 2 }

/-- A sample store holding both users and both tasks. -/
def dbSample : DB :=
  { users := [uAlice, uBob], tasks := [tAlpha, tBeta]
    nextUserId := 3, nextTaskId := 3 }

/-- A password verifier for witnesses: plain equality with the stored hash. -/
def eqVerify (password hashed : String) : Bool := password == hashed

/-- A token issuer for witnesses: the subject itself. -/
def idIssue (subject : String) : String := subject

/-! Theorems settling the claims. -/

/-- C1: for every requester id and task id, whenever no stored task has
both that id and that owner (covering "no task with that id exists" and
"a task with that id exists but belongs to someone else"), the read,
update, and delete routes all answer with the one uniform not-found
response `404 "Task not found"`, so the two situations are
indistinguishable in the response. -/
theorem C1_notfound_uniform (db : DB) (uid tid : Nat) (u : TaskUpdate)
    (h : ∀ t ∈ db.tasks, t.id = tid → t.owner_id ≠ uid) :
    get_single_task db uid tid = .error taskNotFound
  ∧ (update_single_task db uid tid u).1 = .error taskNotFound
  ∧ (delete_single_task db uid tid).1 = .error taskNotFound := by
  have hg : get_task db tid uid = none := by
    unfold get_task
    rw [List.find?_eq_none]
    intro t ht
    simp only [Bool.and_eq_true, beq_iff_eq, not_and]
    exact h t ht
  refine ⟨?_, ?_, ?_⟩ <;>
    simp [get_single_task, update_single_task, delete_single_task,
      update_task, delete_task, hg]

/-- Witness for C1: user 1 requests task 2, which exists but is owned by
user 2; all three routes answer the uniform not-found response. -/
theorem C1_witness :
    get_single_task dbSample 1 2 = .error taskNotFound
  ∧ (update_single_task dbSample 1 2 ⟨none, none, none⟩).1 = .error taskNotFound
  ∧ (delete_single_task dbSample 1 2).1 = .error taskNotFound :=
  C1_notfound_uniform dbSample 1 2 ⟨none, none, none⟩ (by decide)

/-- C2 counterexample: both identity-resolution failures return 401, but
the response bodies differ — a failing token decode yields detail
"Invalid authentication credentials" while an unknown subject email
yields detail "User not found" — so the two responses are not identical,
contrary to the claim. -/
theorem C2_counterexample :
    get_current_user (fun _ => none) dbSample "tok" ≠
      get_current_user (fun _ => some "carol@example.com") dbSample "tok" := by
  have h2 : get_current_user (fun _ => some "carol@example.com") dbSample "tok"
      = .error ⟨401, "User not found"⟩ := by
    simp [get_current_user, dbSample, uAlice, uBob]
  rw [show get_current_user (fun _ => none) dbSample "tok"
      = .error ⟨401, "Invalid authentication credentials"⟩ from rfl, h2]
  simp

/-- C2 amended: both identity-resolution failure causes yield the same
401 unauthorized status code, but the response bodies differ, carrying
either "Invalid authentication credentials" (token failed verification)
or "User not found" (subject email matches no stored user). -/
theorem C2_unauthorized_status (decode : String → Option String) (db : DB)
    (token : String) (e : HttpError)
    (h : get_current_user decode db token = .error e) :
    e.status_code = 401
  ∧ (e.detail = "Invalid authentication credentials" ∨ e.detail = "User not found") := by
  cases hd : decode token with
  | none =>
    simp only [get_current_user, hd, Except.error.injEq] at h
    subst h
    exact ⟨rfl, Or.inl rfl⟩
  | some email =>
    cases hu : db.users.find? (fun u => u.email == email) with
    | none =>
      simp only [get_current_user, hd, hu, Except.error.injEq] at h
      subst h
      exact ⟨rfl, Or.inr rfl⟩
    | some u =>
      simp only [get_current_user, hd, hu] at h
      exact Except.noConfusion h

/-- Witness for C2: a failing decode on the sample store produces the
401 response with the token-failure detail. -/
theorem C2_witness :
    (HttpError.mk 401 "Invalid authentication credentials").status_code = 401
  ∧ ((HttpError.mk 401 "Invalid authentication credentials").detail
        = "Invalid authentication credentials"
     ∨ (HttpError.mk 401 "Invalid authentication credentials").detail
        = "User not found") :=
  C2_unauthorized_status (fun _ => none) dbSample "tok"
    ⟨401, "Invalid authentication credentials"⟩ rfl

/-- C3: the task persisted by the create route carries the authenticated
requester's id as its owner id, for every request body — `TaskCreate` has
no owner field, so no caller-supplied owner id is ever used. -/
theorem C3_owner_forced (db : DB) (current_user : User) (task : TaskCreate) :
    ((create_new_task db current_user task).1).owner_id = current_user.id := rfl

/-- C4: login yields the single undifferentiated `401 "Invalid
credentials"` failure both when the email matches no stored user and when
a user is found but password verification fails — the same error value in
both cases — and on success yields a token together with the token-type
marker "bearer". -/
theorem C4_login_failure_uniform (verify : String → String → Bool)
    (issueTok : String → String) (db : DB) (cred : LoginRequest) :
    (get_user_by_email db cred.email = none →
       login verify issueTok db cred = .error ⟨401, "Invalid credentials"⟩)
  ∧ (∀ u, get_user_by_email db cred.email = some u →
       verify cred.password u.hashed_password = false →
       login verify issueTok db cred = .error ⟨401, "Invalid credentials"⟩)
  ∧ (∀ u, get_user_by_email db cred.email = some u →
       verify cred.password u.hashed_password = true →
       login verify issueTok db cred = .ok ⟨issueTok u.email, "bearer"⟩) := by
  refine ⟨?_, ?_, ?_⟩
  · intro h
    simp [login, authenticate_user, h]
  · intro u h hv
    simp [login, authenticate_user, h, hv]
  · intro u h hv
    simp [login, authenticate_user, h, hv]

/-- Witness for C4: on the sample store, an unknown email and a wrong
password both produce the same invalid-credentials error, and the correct
password produces a bearer token. -/
theorem C4_witness :
    login eqVerify idIssue dbSample ⟨"carol@example.com", "x"⟩
      = .error ⟨401, "Invalid credentials"⟩
  ∧ login eqVerify idIssue dbSample ⟨"alice@example.com", "wrong"⟩
      = .error ⟨401, "Invalid credentials"⟩
  ∧ login eqVerify idIssue dbSample ⟨"alice@example.com", "hpw"⟩
      = .ok ⟨"alice@example.com", "bearer"⟩ :=
  ⟨(C4_login_failure_uniform eqVerify idIssue dbSample _).1 (by decide),
   (C4_login_failure_uniform eqVerify idIssue dbSample _).2.1 uAlice
     (by decide) (by decide),
   (C4_login_failure_uniform eqVerify idIssue dbSample _).2.2 uAlice
     (by decide) (by decide)⟩

/-- C5: when a user with the requested email already exists in the store,
register fails with the duplicate-email conflict error (400 "Email
already registered") and leaves the whole store — in particular the
existing user record — unchanged: no insert occurs. -/
theorem C5_duplicate_email_conflict (hash : String → String) (db : DB)
    (reg : UserCreate) (u0 : User)
    (h : get_user_by_email db reg.email = some u0) :
    (register hash db reg).1 = .error ⟨400, "Email already registered"⟩
  ∧ (register hash db reg).2 = db := by
  simp [register, h]

/-- Witness for C5: re-registering the sample user's email fails with the
conflict error and leaves the sample store untouched. -/
theorem C5_witness :
    (register idIssue dbSample ⟨"alice@example.com", "Alice Again", "pw2"⟩).1
      = .error ⟨400, "Email already registered"⟩
  ∧ (register idIssue dbSample ⟨"alice@example.com", "Alice Again", "pw2"⟩).2
      = dbSample :=
  C5_duplicate_email_conflict idIssue dbSample
    ⟨"alice@example.com", "Alice Again", "pw2"⟩ uAlice (by decide)

/-- C6: on an owned task, update applies exactly the fields present in
the request: the stored result is `applyTaskUpdate u t`, in which every
absent field keeps its stored value and every present field takes the
requested value; in particular a status-only update changes nothing but
the status. -/
theorem C6_partial_update (db : DB) (uid tid : Nat) (u : TaskUpdate)
    (t : Task) (h : get_task db tid uid = some t) :
    (update_task db tid uid u).1 = some (applyTaskUpdate u t)
  ∧ (u.title = none → (applyTaskUpdate u t).title = t.title)
  ∧ (u.description = none → (applyTaskUpdate u t).description = t.description)
  ∧ (u.status = none → (applyTaskUpdate u t).status = t.status)
  ∧ (∀ v, u.title = some v → (applyTaskUpdate u t).title = v)
  ∧ (∀ v, u.description = some v → (applyTaskUpdate u t).description = v)
  ∧ (∀ v, u.status = some v → (applyTaskUpdate u t).status = v)
  ∧ (∀ s, u.title = none → u.description = none → u.status = some s →
       applyTaskUpdate u t = { t with status := s }) := by
  refine ⟨by simp [update_task, h], ?_, ?_, ?_, ?_, ?_, ?_, ?_⟩ <;>
    intros <;> simp [applyTaskUpdate, *]

/-- Witness for C6: a status-only update of the sample task keeps its
title and description. -/
theorem C6_witness :
    (update_task dbSample 1 1 ⟨none, none, some "done"⟩).1
      = some (applyTaskUpdate ⟨none, none, some "done"⟩ tAlpha) :=
  (C6_partial_update dbSample 1 1 ⟨none, none, some "done"⟩ tAlpha
    (by decide)).1

/-- Helper: members of a `get_user_tasks` page belong to the requester. -/
theorem owner_of_mem_get_user_tasks (db : DB) (uid skip limit : Nat)
    (t : Task) (ht : t ∈ get_user_tasks db uid skip limit) :
    t.owner_id = uid := by
  unfold get_user_tasks at ht
  have h1 : t ∈ db.tasks.filter (fun x => x.owner_id == uid) :=
    List.drop_subset _ _ (List.take_subset _ _ ht)
  simpa using (List.mem_filter.mp h1).2

/-- Helper: members of a `search_tasks` result belong to the requester. -/
theorem owner_of_mem_search_tasks (db : DB) (uid : Nat) (s : String)
    (t : Task) (ht : t ∈ search_tasks db uid s) : t.owner_id = uid := by
  unfold search_tasks at ht
  have h2 := (List.mem_filter.mp ht).2
  simp only [Bool.and_eq_true, beq_iff_eq] at h2
  exact h2.1

/-- C7: every task returned by the list route — with or without a search
term — has the requester's id as owner, whatever other users' tasks the
store holds. -/
theorem C7_owner_isolation (db : DB) (uid : Nat) (search : Option String) :
    ∀ t ∈ list_tasks db uid search, t.owner_id = uid := by
  intro t ht
  cases search with
  | none => exact owner_of_mem_get_user_tasks db uid 0 100 t ht
  | some s =>
    simp only [list_tasks] at ht
    split at ht
    · exact owner_of_mem_get_user_tasks db uid 0 100 t ht
    · exact owner_of_mem_search_tasks db uid s t ht

/-- Witness for C7: the sample task listed for user 1 is owned by user 1,
while the store also holds user 2's task. -/
theorem C7_witness : tAlpha.owner_id = 1 :=
  C7_owner_isolation dbSample 1 none tAlpha (by decide)

/-- C8 counterexample: with TTL = 0 the expiry equals the issuance
instant, so verifying immediately after issuing returns the invalid
sentinel, not the subject — the claim's "for every TTL" fails at 0. -/
theorem C8_counterexample :
    verifyToken "k" 5 (issueToken "k" 5 "alice" 0) ≠ some "alice" := by
  simp [verifyToken, issueToken]

/-- C8 amended: for every subject and every positive TTL, verifying
immediately after issuing returns the original subject; verifying at or
after the expiry instant returns the invalid sentinel; and in general a
token verifies as valid exactly when its signature matches the secret key
and the current time is before its expiry. -/
theorem C8_token_validity (key subject : String) (now ttl t : Nat)
    (httl : 0 < ttl) :
    verifyToken key now (issueToken key now subject ttl) = some subject
  ∧ (now + ttl ≤ t → verifyToken key t (issueToken key now subject ttl) = none)
  ∧ (∀ (tok : SignedToken) (s : String),
       verifyToken key t tok = some s ↔
         tok.signature = signToken key tok.payload ∧ t < tok.payload.exp
           ∧ s = tok.payload.sub) := by
  refine ⟨?_, ?_, ?_⟩
  · have hlt : now < now + ttl := Nat.lt_add_of_pos_right httl
    simp [verifyToken, issueToken, hlt]
  · intro hle
    have hnlt : ¬ t < now + ttl := Nat.not_lt.mpr hle
    simp [verifyToken, issueToken, hnlt]
  · intro tok s
    unfold verifyToken
    split
    · next hc =>
      simp only [Bool.and_eq_true, beq_iff_eq, decide_eq_true_eq] at hc
      constructor
      · intro h
        injection h with h'
        exact ⟨hc.1, hc.2, h'.symm⟩
      · rintro ⟨-, -, h3⟩
        rw [h3]
    · next hc =>
      constructor
      · intro h
        exact Option.noConfusion h
      · rintro ⟨h1, h2, -⟩
        exact absurd (by simp [h1, h2]) hc

/-- Witness for C8: a token issued at time 10 with TTL 30 verifies to its
subject at time 10. -/
theorem C8_witness :
    verifyToken "k" 10 (issueToken "k" 10 "alice" 30) = some "alice" :=
  (C8_token_validity "k" "alice" 10 30 40 (by decide)).1

/-- Store with every user's active flag forced to `b`; its task table is
untouched. -/
def withActiveFlag (b : Bool) (db : DB) : DB :=
  { db with users := db.users.map (fun u => { u with is_active := b }) }

/-- Helper: the visible response of the update route depends on the
store only through its task table. -/
theorem update_single_task_fst_congr (db db' : DB) (uid tid : Nat)
    (up : TaskUpdate) (h : db'.tasks = db.tasks) :
    (update_single_task db' uid tid up).1 = (update_single_task db uid tid up).1 := by
  unfold update_single_task update_task get_task
  rw [h]
  cases db.tasks.find? (fun x => x.id == tid && x.owner_id == uid) <;> rfl

/-- Helper: the visible response of the delete route depends on the
store only through its task table. -/
theorem delete_single_task_fst_congr (db db' : DB) (uid tid : Nat)
    (h : db'.tasks = db.tasks) :
    (delete_single_task db' uid tid).1 = (delete_single_task db uid tid).1 := by
  unfold delete_single_task delete_task get_task
  rw [h]
  cases db.tasks.find? (fun x => x.id == tid && x.owner_id == uid) <;> rfl

/-- C9: the active flag is never consulted — for a stored user whose
is_active is false, login with correct credentials still returns a bearer
token, identity resolution still succeeds for a token naming that user,
and the gated read/update/delete routes answer exactly as they would if
every user's flag were set the other way. -/
theorem C9_active_flag_ignored (verify : String → String → Bool)
    (issueTok : String → String) (decode : String → Option String)
    (db : DB) (cred : LoginRequest) (u : User)
    (hu : get_user_by_email db cred.email = some u)
    (_hinactive : u.is_active = false)
    (hv : verify cred.password u.hashed_password = true) :
    login verify issueTok db cred = .ok ⟨issueTok u.email, "bearer"⟩
  ∧ (∀ tok, decode tok = some cred.email →
       get_current_user decode db tok = .ok u)
  ∧ (∀ b tid,
       get_single_task (withActiveFlag b db) u.id tid
         = get_single_task db u.id tid
       ∧ (∀ up, (update_single_task (withActiveFlag b db) u.id tid up).1
            = (update_single_task db u.id tid up).1)
       ∧ (delete_single_task (withActiveFlag b db) u.id tid).1
            = (delete_single_task db u.id tid).1) := by
  refine ⟨?_, ?_, ?_⟩
  · simp [login, authenticate_user, hu, hv]
  · intro tok hd
    unfold get_user_by_email at hu
    simp [get_current_user, hd, hu]
  · intro b tid
    exact ⟨rfl,
      fun up => update_single_task_fst_congr db (withActiveFlag b db) u.id tid up rfl,
      delete_single_task_fst_congr db (withActiveFlag b db) u.id tid rfl⟩

/-- Witness for C9: the sample inactive user logs in successfully with
the correct password. -/
theorem C9_witness :
    login eqVerify idIssue dbSample ⟨"bob@example.com", "hpw2"⟩
      = .ok ⟨"bob@example.com", "bearer"⟩ :=
  (C9_active_flag_ignored eqVerify idIssue (fun _ => some "bob@example.com")
    dbSample ⟨"bob@example.com", "hpw2"⟩ uBob
    (by decide) (by decide) (by decide)).1

/-- C10: without a search term the list route returns exactly the
first-100 page (defaults skip = 0, limit = 100) of the requester's tasks,
hence never more than 100; with a non-empty search term it returns every
matching owned task, with no such limit. -/
theorem C10_list_limit (db : DB) (uid : Nat) :
    list_tasks db uid none
      = ((db.tasks.filter (fun t => t.owner_id == uid)).drop 0).take 100
  ∧ (list_tasks db uid none).length ≤ 100
  ∧ (∀ s : String, s.isEmpty = false →
       list_tasks db uid (some s)
         = db.tasks.filter (fun t => t.owner_id == uid && ilikeContains t.title s))
  ∧ (∀ s : String, s.isEmpty = false → ∀ t ∈ db.tasks,
       t.owner_id = uid → ilikeContains t.title s = true →
       t ∈ list_tasks db uid (some s)) := by
  refine ⟨rfl, ?_, ?_, ?_⟩
  · have h : list_tasks db uid none
        = ((db.tasks.filter (fun t => t.owner_id == uid)).drop 0).take 100 := rfl
    rw [h, List.length_take]
    exact min_le_left _ _
  · intro s hs
    simp [list_tasks, search_tasks, hs]
  · intro s hs t ht howner hlike
    simp [list_tasks, search_tasks, hs, List.mem_filter, ht, howner, hlike]

/-- Witness for C10: searching the sample store for "alp" returns exactly
the matching owned tasks of user 1, untruncated. -/
theorem C10_witness :
    list_tasks dbSample 1 (some "alp")
      = dbSample.tasks.filter
          (fun t => t.owner_id == 1 && ilikeContains t.title "alp") :=
  (C10_list_limit dbSample 1).2.2.1 "alp" (by decide)

end AuthDash
